import Mathlib

/-!
Verification development for the prem-watch ingestion system.

The definitions below are a shallow embedding of:
* `src/premwatch/db/db_loader.py` (`SQLiteLoader`): schema-evolving SQLite
  persistence (`ensure_table_and_columns`, `insert_or_update_dict`),
* `src/app/db/oop_updater.py`: the ingestion tasks and the cascading
  orchestrator (`ComprehensiveUpdateTask`),
* `src/app/api/api_client.py`: the paginated `get_league_players` fetch.

Python values are modelled by `PyVal`; machine floats never undergo
arithmetic in the modelled code (they are only classified and stored), so
they are carried as rationals.  SQLite storage is modelled at the level of
its observable semantics: a table is an ordered column list plus a list of
rows, a row is an association list of bound (possibly NULL) values, and
`INSERT OR REPLACE` keyed on the `id` rowid-alias column deletes the
conflicting row before inserting.
-/

/-- SQLite storage classes produced by `SQLiteLoader._infer_sql_type`. -/
inductive SqlType
  | integer
  | real
  | text
deriving DecidableEq, Repr

/-- A non-NULL SQLite value as bound by the loader (NULL is `Option.none`
at the binding sites). -/
inductive SqlVal
  | int (n : Int)
  | real (q : ℚ)
  | text (s : String)
deriving DecidableEq, Repr

/-- A Python/JSON value as handled by the ingestion code. -/
inductive PyVal
  | int (n : Int)
  | float (q : ℚ)
  | str (s : String)
  | dict (fields : List (String × PyVal))
  | list (elems : List PyVal)
  | none
deriving Repr

/-- A Python dict as passed to the loader: field name to value, in
insertion order (keys of a real dict are distinct). -/
abbrev Record := List (String × PyVal)

/-- `SQLiteLoader._infer_sql_type`. -/
def inferSqlType : PyVal → SqlType
  | .int _ => .integer
  | .float _ => .real
  | .str _ => .text
  | .dict _ => .text
  | .list _ => .text
  | .none => .text

mutual

/-- `json.dumps` as used by `insert_or_update_dict` for nested values
(string escaping is not needed by any modelled input). -/
def jsonDumps : PyVal → String
  | .int n => toString n
  | .float q => toString q
  | .str s => "\"" ++ s ++ "\""
  | .dict fs => "\x7b" ++ jsonDumpsFields fs ++ "\x7d"
  | .list xs => "[" ++ jsonDumpsElems xs ++ "]"
  | .none => "null"

def jsonDumpsFields : List (String × PyVal) → String
  | [] => ""
  | [(k, v)] => "\"" ++ k ++ "\": " ++ jsonDumps v
  | (k, v) :: rest => "\"" ++ k ++ "\": " ++ jsonDumps v ++ ", " ++ jsonDumpsFields rest

def jsonDumpsElems : List PyVal → String
  | [] => ""
  | [v] => jsonDumps v
  | v :: rest => jsonDumps v ++ ", " ++ jsonDumpsElems rest

end

/-- The value bound for one record field by `insert_or_update_dict`:
dicts/lists are serialized to JSON text, `None` binds SQL NULL. -/
def toSqlVal : PyVal → Option SqlVal
  | .int n => some (.int n)
  | .float q => some (.real q)
  | .str s => some (.text s)
  | .dict fs => some (.text (jsonDumps (.dict fs)))
  | .list xs => some (.text (jsonDumps (.list xs)))
  | .none => Option.none

/-- A stored row: the bound parameters of the INSERT that produced it;
columns absent from the list read as NULL. -/
abbrev Row := List (String × Option SqlVal)

/-- One column of a table schema. -/
structure TableCol where
  colName : String
  colType : SqlType
deriving DecidableEq, Repr

/-- One SQLite table: schema, rows, and the next auto-assigned rowid. -/
structure Table where
  cols : List TableCol
  rows : List Row
  nextId : Int
deriving DecidableEq, Repr

/-- The database: tables by name, in creation order. -/
abbrev DB := List (String × Table)

def dbEmpty : DB := []

/-- First-match association lookup (dict / sqlite_master lookup). -/
def alookup {α : Type} (k : String) : List (String × α) → Option α
  | [] => Option.none
  | (k', v) :: rest => if k' = k then some v else alookup k rest

/-- Replace the value at the first occurrence of key `k`. -/
def aupdate {α : Type} (k : String) (v : α) : List (String × α) → List (String × α)
  | [] => []
  | (k', v') :: rest => if k' = k then (k', v) :: rest else (k', v') :: aupdate k v rest

/-- Column names of an existing table (`SQLiteLoader._get_table_columns`);
empty when the table does not exist. -/
def getTableColumns (db : DB) (t : String) : List String :=
  ((alookup t db).map (fun tbl => tbl.cols.map (·.colName))).getD []

/-- Schema of a table, empty when absent. -/
def tableCols (db : DB) (t : String) : List TableCol :=
  ((alookup t db).map (·.cols)).getD []

/-- Rows of a table, empty when absent. -/
def tableRows (db : DB) (t : String) : List Row :=
  ((alookup t db).map (·.rows)).getD []

/-- DDL statements executed by `ensure_table_and_columns`. -/
inductive DDL
  | createTable (t : String)
  | addColumn (t c : String)
deriving DecidableEq, Repr

/-- `SQLiteLoader.ensure_table_and_columns`: create the table (an `id`
INTEGER primary-key column first — declared even when the record lacks
`id`, via AUTOINCREMENT — then one column per remaining key, typed from
the sample value), or add the columns whose keys are missing.  Also
returns the DDL it executed. -/
def ensure_table_and_columns (db : DB) (t : String) (r : Record) : DB × List DDL :=
  match alookup t db with
  | Option.none =>
      let newCols : List TableCol :=
        ⟨"id", SqlType.integer⟩ ::
          (r.filter (fun kv => kv.1 ≠ "id")).map
            (fun kv => ⟨kv.1, inferSqlType kv.2⟩)
      (db ++ [(t, ⟨newCols, [], 1⟩)], [DDL.createTable t])
  | some tbl =>
      let existing := tbl.cols.map (·.colName)
      let added : List TableCol :=
        (r.filter (fun kv => ¬ existing.contains kv.1)).map
          (fun kv => ⟨kv.1, inferSqlType kv.2⟩)
      (aupdate t ⟨tbl.cols ++ added, tbl.rows, tbl.nextId⟩ db,
        added.map (fun c => DDL.addColumn t c.colName))

/-- The bound parameter list of an INSERT for `data_dict`
(`processed_data` in `insert_or_update_dict`). -/
def processRecord (r : Record) : Row :=
  r.map (fun kv => (kv.1, toSqlVal kv.2))

/-- Value of column `c` in a stored row (`Option.none` = NULL). -/
def rowVal (row : Row) (c : String) : Option SqlVal :=
  (alookup c row).join

/-- Value of a decimal digit string, `Option.none` when empty or when a
non-digit occurs. -/
def digitsVal? (ds : List Char) : Option Nat :=
  match ds with
  | [] => Option.none
  | _ =>
      ds.foldl
        (fun acc c =>
          acc.bind (fun n =>
            if c.isDigit then some (n * 10 + (c.toNat - 48)) else Option.none))
        (some 0)

/-- Integer reading of a string (optional leading minus then digits),
modelling SQLite's text-to-INTEGER conversion for the rowid. -/
def strToInt? (s : String) : Option Int :=
  match s.toList with
  | '-' :: ds => (digitsVal? ds).map (fun n => -(n : Int))
  | ds => (digitsVal? ds).map (fun n => (n : Int))

/-- SQLite coercion of a bound value into the INTEGER `id` rowid-alias
column: integers pass, integral reals and integer-shaped text convert,
anything else is a `datatype mismatch` error. -/
def rowIdCoerce : SqlVal → Option Int
  | .int n => some n
  | .real q => if q.den = 1 then some q.num else Option.none
  | .text s => strToInt? s

/-- Storage-layer errors surfaced by the loader. -/
inductive StoreErr
  | datatypeMismatch
deriving DecidableEq, Repr

/-- Replace the value bound for `id` (the rowid actually stored). -/
def setRowId (row : Row) (n : Int) : Row :=
  aupdate "id" (some (SqlVal.int n)) row

/-- `SQLiteLoader.insert_or_update_dict`: ensure the schema from the
record, serialize nested values, then `INSERT OR REPLACE` when the record
carries an `id` key (delete-then-insert on the conflicting rowid), plain
`INSERT` with an auto-assigned rowid otherwise. -/
def insert_or_update_dict (db : DB) (t : String) (r : Record) : Except StoreErr DB :=
  let db1 := (ensure_table_and_columns db t r).1
  let processed := processRecord r
  match alookup t db1 with
  | Option.none => Except.ok db1
  | some tbl =>
      if r.any (fun kv => kv.1 = "id") then
        match (alookup "id" processed).join with
        | Option.none =>
            -- a NULL id in the rowid-alias column auto-assigns the rowid
            let row := setRowId processed tbl.nextId
            Except.ok (aupdate t ⟨tbl.cols, tbl.rows ++ [row], tbl.nextId + 1⟩ db1)
        | some v =>
            match rowIdCoerce v with
            | Option.none => Except.error StoreErr.datatypeMismatch
            | some n =>
                let kept := tbl.rows.filter
                  (fun row => rowVal row "id" ≠ some (SqlVal.int n))
                let row := setRowId processed n
                Except.ok (aupdate t ⟨tbl.cols, kept ++ [row], max tbl.nextId (n + 1)⟩ db1)
      else
        let row : Row := ("id", some (SqlVal.int tbl.nextId)) :: processed
        Except.ok (aupdate t ⟨tbl.cols, tbl.rows ++ [row], tbl.nextId + 1⟩ db1)

/-- `ComprehensiveUpdateTask._get_ids_from_table`: distinct non-NULL
values of `c` in `t`; empty when the table does not exist, and empty when
the query errors (e.g. the column does not exist). -/
def getIdsFromTable (db : DB) (t c : String) : List SqlVal :=
  match alookup t db with
  | Option.none => []
  | some tbl =>
      if c ∈ tbl.cols.map (·.colName) then
        (tbl.rows.filterMap (fun row => rowVal row c)).dedup
      else []

/-! ## Dynamic Python semantics used by the ingestion tasks

The tasks in `src/app/db/oop_updater.py` manipulate untyped API payloads;
the helpers below model the Python operations they perform, including the
exceptions those operations raise on unexpected shapes. -/

/-- Python truthiness of a value. -/
def pyTruthy : PyVal → Bool
  | .int n => n != 0
  | .float q => q != 0
  | .str s => s != ""
  | .dict fs => !fs.isEmpty
  | .list xs => !xs.isEmpty
  | .none => false

/-- Errors raised while a task executes: Python exceptions plus
storage-layer errors surfaced by the loader. -/
inductive Err
  | attributeError
  | typeError
  | keyError
  | indexError
  | storeErr (e : StoreErr)
deriving DecidableEq, Repr

/-- Python `==` against a string literal (a string equals only an equal
string; comparisons against other types are `False`). -/
def pyEqStr (k : String) : PyVal → Bool
  | .str s => s = k
  | _ => false

/-- Substring test, for Python `in` on strings. -/
def strContainsSub (s sub : String) : Bool :=
  (List.range (s.length + 1)).any (fun i => sub.toList.isPrefixOf (s.toList.drop i))

/-- Python `k in v`: key test on dicts, membership on lists, substring on
strings; `TypeError` on non-containers. -/
def pyContains (v : PyVal) (k : String) : Except Err Bool :=
  match v with
  | .dict fs => .ok (fs.any (fun kv => kv.1 = k))
  | .list xs => .ok (xs.any (pyEqStr k))
  | .str s => .ok (strContainsSub s k)
  | _ => .error Err.typeError

/-- Python `v.get(k)` on a dict (default `None`); `AttributeError` when
`v` is not a dict. -/
def pyDictGet (v : PyVal) (k : String) : Except Err PyVal :=
  match v with
  | .dict fs => .ok ((alookup k fs).getD PyVal.none)
  | _ => .error Err.attributeError

/-- Python `v[k]` with a string key: dict lookup (`KeyError` when the key
is absent); `TypeError` otherwise. -/
def pyGetItem (v : PyVal) (k : String) : Except Err PyVal :=
  match v with
  | .dict fs =>
      match alookup k fs with
      | some x => .ok x
      | Option.none => .error Err.keyError
  | _ => .error Err.typeError

/-- Python `v[0]`, as in `data[0] if data else {}`: head of a list, first
character of a string, `KeyError` on a (string-keyed) dict, `TypeError`
otherwise. -/
def pyGetIndexZero (v : PyVal) : Except Err PyVal :=
  match v with
  | .list (x :: _) => .ok x
  | .list [] => .error Err.indexError
  | .str s =>
      match s.toList with
      | c :: _ => .ok (.str (String.singleton c))
      | [] => .error Err.indexError
  | .dict _ => .error Err.keyError
  | _ => .error Err.typeError

/-- Python `for x in v`: elements of a list, keys of a dict, characters
of a string; `TypeError` otherwise. -/
def pyIter (v : PyVal) : Except Err (List PyVal) :=
  match v with
  | .list xs => .ok xs
  | .dict fs => .ok (fs.map (fun kv => PyVal.str kv.1))
  | .str s => .ok (s.toList.map (fun c => PyVal.str (String.singleton c)))
  | _ => .error Err.typeError

/-! ## The task layer -/

/-- The keyword-argument mapping handed to `Task.execute` (`kwargs`);
identity-valued arguments carry the raw value read from the store. -/
structure Kw where
  country_id : Option SqlVal
  chosen_only : Option Bool
  season_id : Option SqlVal
  stats : Option Bool
  max_time : Option SqlVal
  date : Option String
  team_id : Option SqlVal
  match_id : Option SqlVal
  player_id : Option SqlVal
  referee_id : Option SqlVal
deriving DecidableEq, Repr

def kwEmpty : Kw :=
  ⟨Option.none, Option.none, Option.none, Option.none, Option.none,
   Option.none, Option.none, Option.none, Option.none, Option.none⟩

def kwLeagues (cid : Option SqlVal) (chosen : Bool) : Kw :=
  { kwEmpty with country_id := cid, chosen_only := some chosen }

def kwSeasonStats (sid : Option SqlVal) : Kw :=
  { kwEmpty with season_id := sid, stats := some true }

def kwSeason (sid : Option SqlVal) : Kw :=
  { kwEmpty with season_id := sid }

def kwTeam (tid : Option SqlVal) : Kw :=
  { kwEmpty with team_id := tid }

def kwMatch (mid : Option SqlVal) : Kw :=
  { kwEmpty with match_id := mid }

def kwPlayer (pid : Option SqlVal) : Kw :=
  { kwEmpty with player_id := pid }

def kwReferee (rid : Option SqlVal) : Kw :=
  { kwEmpty with referee_id := rid }

/-- Python truthiness of an optional kwarg holding a store value
(`if not season_id:`): absent, zero and empty-string values are falsy. -/
def truthyOpt : Option SqlVal → Bool
  | Option.none => false
  | some (.int n) => n != 0
  | some (.real q) => q != 0
  | some (.text s) => s != ""

/-- Python truthiness of an optional boolean kwarg. -/
def optBoolTruthy : Option Bool → Bool
  | Option.none => false
  | some b => b

/-- Observable events of a run: remote fetches, rows written (with the
bound `id` value), and the per-task reports printed by the source. -/
inductive Event
  | fetch (endpoint : String) (args : List SqlVal)
  | invoke (task : String) (kw : Kw)
  | write (table : String) (idVal : Option SqlVal)
  | noData (task : String)
  | missingParam (param : String) (task : String)
  | tableMissing (table : String)
  | unregistered (task : String)
  | info (task : String)
deriving DecidableEq, Repr

/-- Run state: the store plus the event trace. -/
structure TraceSt where
  db : DB
  log : List Event
deriving DecidableEq, Repr

/-- The task monad: state plus Python-exception propagation. -/
abbrev M := EStateM Err TraceSt

def logE (e : Event) : M Unit :=
  fun s => .ok () ⟨s.db, s.log ++ [e]⟩

def liftEx {α : Type} : Except Err α → M α
  | .ok a => pure a
  | .error e => fun s => .error e s

/-- `self.loader.ensure_table_and_columns(t, v)` called from a task:
the loader immediately calls `v.items()`, so a non-dict raises
`AttributeError`. -/
def ensureDyn (t : String) (v : PyVal) : M Unit :=
  match v with
  | .dict fs => fun s => .ok () ⟨(ensure_table_and_columns s.db t fs).1, s.log⟩
  | _ => fun s => .error Err.attributeError s

/-- `self.loader.insert_or_update_dict(t, v)` called from a task: a
non-dict raises `AttributeError` (`v.items()`); storage errors propagate
as exceptions. -/
def insertDyn (t : String) (v : PyVal) : M Unit :=
  match v with
  | .dict fs => fun s =>
      match insert_or_update_dict s.db t fs with
      | .ok db' =>
          .ok () ⟨db', s.log ++ [Event.write t ((alookup "id" (processRecord fs)).join)]⟩
      | .error e => .error (Err.storeErr e) s
  | _ => fun s => .error Err.attributeError s

/-- A fake Remote Data Source: one canned response per resource fetch,
keyed by the arguments the tasks pass. -/
structure FakeClient where
  countries : Option PyVal
  leagues : Option SqlVal → Bool → Option PyVal
  todaysMatches : Option String → Option PyVal
  leagueStats : Option SqlVal → Option PyVal
  schedule : Option SqlVal → Option PyVal
  leagueTeams : Option SqlVal → Bool → Option PyVal
  leaguePlayers : Option SqlVal → Option PyVal
  leagueReferees : Option SqlVal → Option PyVal
  matchDetails : Option SqlVal → Option PyVal
  leagueTable : Option SqlVal → Option PyVal
  playerStats : Option SqlVal → Option PyVal
  refereeStats : Option SqlVal → Option PyVal
  btts : Option PyVal
  over25 : Option PyVal

def optArgs : Option SqlVal → List SqlVal := Option.toList

/-- A client fetch: records the request and returns the canned response. -/
def apiFetch (endpoint : String) (args : List SqlVal) (resp : Option PyVal) :
    M (Option PyVal) := do
  logE (Event.fetch endpoint args)
  pure resp

/-- The guard every task runs on a fetched response —
`if not X or "data" not in X: print(...); return` — followed by
`X = X.get("data")` and the continuation on success. -/
def withData (taskName : String) (resp : Option PyVal) (k : PyVal → M Unit) : M Unit :=
  match resp with
  | Option.none => logE (Event.noData taskName)
  | some v =>
      if pyTruthy v then do
        let hasData ← liftEx (pyContains v "data")
        if hasData then do
          let dat ← liftEx (pyDictGet v "data")
          k dat
        else logE (Event.noData taskName)
      else logE (Event.noData taskName)

/-- The shared tail of the list-shaped tasks:
`ensure(table, X[0] if X else {})` then one upsert per element. -/
def loadListData (taskName tableName : String) (resp : Option PyVal) : M Unit :=
  withData taskName resp (fun dat => do
    let sample ←
      if pyTruthy dat then liftEx (pyGetIndexZero dat)
      else pure (PyVal.dict [])
    ensureDyn tableName sample
    let items ← liftEx (pyIter dat)
    for it in items do
      insertDyn tableName it)

/-- `UpdateCountriesTask.execute`. -/
def executeCountries (cl : FakeClient) : M Unit := do
  let resp ← apiFetch "country-list" [] cl.countries
  loadListData "countries" "countries" resp

/-- `UpdateMatchesTask.execute`. -/
def executeMatches (cl : FakeClient) (kw : Kw) : M Unit := do
  let resp ← apiFetch "todays-matches" [] (cl.todaysMatches kw.date)
  loadListData "matches" "matches" resp

/-- The per-league flattening loop of `UpdateLeaguesTask.execute`: one
flat record per nested season, carrying the parent league's fields. -/
def cleanLeague (league : PyVal) : M (List PyVal) := do
  let hasSeason ← liftEx (pyContains league "season")
  if hasSeason then do
    let seasons ← liftEx (pyGetItem league "season")
    let slist ← liftEx (pyIter seasons)
    slist.mapM (fun season => do
      let idv ← liftEx (pyDictGet season "id")
      let namev ← liftEx (pyDictGet league "name")
      let yearv ← liftEx (pyDictGet season "year")
      let countryv ← liftEx (pyDictGet league "country")
      let lnv ← liftEx (pyDictGet league "league_name")
      let imgv ← liftEx (pyDictGet league "image")
      pure (PyVal.dict [("id", idv), ("name", namev), ("season", yearv),
        ("country", countryv), ("league_name", lnv), ("image", imgv)]))
  else pure []

/-- `UpdateLeaguesTask.execute`. -/
def executeLeagues (cl : FakeClient) (kw : Kw) : M Unit := do
  let resp ← apiFetch "league-list" (optArgs kw.country_id)
    (cl.leagues kw.country_id (optBoolTruthy kw.chosen_only))
  withData "leagues" resp (fun dat => do
    let items ← liftEx (pyIter dat)
    let cleanedParts ← items.mapM cleanLeague
    let cleaned := cleanedParts.flatten
    ensureDyn "leagues" (cleaned.headD (PyVal.dict []))
    for lg in cleaned do
      insertDyn "leagues" lg)

/-- `UpdateLeagueStatsTask.execute`. -/
def executeLeagueStats (cl : FakeClient) (kw : Kw) : M Unit :=
  if truthyOpt kw.season_id then do
    let resp ← apiFetch "league-statistics" (optArgs kw.season_id)
      (cl.leagueStats kw.season_id)
    loadListData "league_stats" "league_stats" resp
  else logE (Event.missingParam "season_id" "league_stats")

/-- `UpdateSchedulesTask.execute` (writes into the `matches` table). -/
def executeSchedules (cl : FakeClient) (kw : Kw) : M Unit :=
  if truthyOpt kw.season_id then do
    let resp ← apiFetch "league-matches" (optArgs kw.season_id)
      (cl.schedule kw.season_id)
    loadListData "schedules" "matches" resp
  else logE (Event.missingParam "season_id" "schedules")

/-- The per-team flattening of `UpdateTeamsTask.execute`: when stats were
requested and present, hoist the nested `stats` dict into prefixed
top-level fields. -/
def cleanTeam (stats : Bool) (team : PyVal) : Except Err PyVal :=
  match team with
  | .dict fs =>
      if stats && fs.any (fun kv => kv.1 = "stats") then
        match alookup "stats" fs with
        | some (.dict sfs) =>
            .ok (.dict ((fs.filter (fun kv => kv.1 ≠ "stats")) ++
              sfs.map (fun kv => ("stats_" ++ kv.1, kv.2))))
        | some _ => .error Err.attributeError
        | Option.none => .ok (.dict fs)
      else .ok (.dict fs)
  | _ => .error Err.attributeError

/-- `UpdateTeamsTask.execute`. -/
def executeTeams (cl : FakeClient) (kw : Kw) : M Unit :=
  if truthyOpt kw.season_id then do
    let resp ← apiFetch "league-teams" (optArgs kw.season_id)
      (cl.leagueTeams kw.season_id (optBoolTruthy kw.stats))
    withData "teams" resp (fun dat => do
      let items ← liftEx (pyIter dat)
      let cleaned ← liftEx (items.mapM (cleanTeam (optBoolTruthy kw.stats)))
      ensureDyn "teams" (cleaned.headD (PyVal.dict []))
      for t in cleaned do
        insertDyn "teams" t)
  else logE (Event.missingParam "season_id" "teams")

/-- `UpdatePlayersTask.execute` (the client's pagination is internal to
`get_league_players`; the task sees the combined response). -/
def executePlayers (cl : FakeClient) (kw : Kw) : M Unit :=
  if truthyOpt kw.season_id then do
    let resp ← apiFetch "league-players" (optArgs kw.season_id)
      (cl.leaguePlayers kw.season_id)
    loadListData "players" "players" resp
  else logE (Event.missingParam "season_id" "players")

/-- `UpdateRefereesTask.execute`. -/
def executeReferees (cl : FakeClient) (kw : Kw) : M Unit :=
  if truthyOpt kw.season_id then do
    let resp ← apiFetch "league-referees" (optArgs kw.season_id)
      (cl.leagueReferees kw.season_id)
    loadListData "referees" "referees" resp
  else logE (Event.missingParam "season_id" "referees")

/-- `UpdateTeamDataTask.execute` (prints a redirect notice and returns). -/
def executeTeamData : M Unit := logE (Event.info "team_data")

/-- `UpdateTeamFormTask.execute` (prints a redirect notice and returns). -/
def executeTeamForm : M Unit := logE (Event.info "team_form")

/-- `UpdateMatchDetailsTask.execute`. -/
def executeMatchDetails (cl : FakeClient) (kw : Kw) : M Unit :=
  if truthyOpt kw.match_id then do
    let resp ← apiFetch "match" (optArgs kw.match_id)
      (cl.matchDetails kw.match_id)
    loadListData "match_details" "match_details" resp
  else logE (Event.missingParam "match_id" "match_details")

/-- `UpdateLeagueTableTask.execute`. -/
def executeLeagueTable (cl : FakeClient) (kw : Kw) : M Unit :=
  if truthyOpt kw.season_id then do
    let resp ← apiFetch "league-tables" (optArgs kw.season_id)
      (cl.leagueTable kw.season_id)
    loadListData "league_table" "league_table" resp
  else logE (Event.missingParam "season_id" "league_table")

/-- `UpdatePlayerStatsTask.execute` (writes into the `players` table). -/
def executePlayerStats (cl : FakeClient) (kw : Kw) : M Unit :=
  if truthyOpt kw.player_id then do
    let resp ← apiFetch "player-stats" (optArgs kw.player_id)
      (cl.playerStats kw.player_id)
    loadListData "player_stats" "players" resp
  else logE (Event.missingParam "player_id" "player_stats")

/-- `UpdateRefereeStatsTask.execute` (writes into the `referees` table). -/
def executeRefereeStats (cl : FakeClient) (kw : Kw) : M Unit :=
  if truthyOpt kw.referee_id then do
    let resp ← apiFetch "referee" (optArgs kw.referee_id)
      (cl.refereeStats kw.referee_id)
    loadListData "referee_stats" "referees" resp
  else logE (Event.missingParam "referee_id" "referee_stats")

/-- `UpdateBttsStatsTask.execute`: the `ensure_table_and_columns` call is
commented out in the source; each iterated element is upserted directly. -/
def executeBtts (cl : FakeClient) : M Unit := do
  let resp ← apiFetch "stats-data-btts" [] cl.btts
  withData "btts_stats" resp (fun dat => do
    let items ← liftEx (pyIter dat)
    for it in items do
      insertDyn "btts_stats" it)

/-- `UpdateOver25StatsTask.execute`: same shape as the BTTS task. -/
def executeOver25 (cl : FakeClient) : M Unit := do
  let resp ← apiFetch "stats-data-over25" [] cl.over25
  withData "over_25_stats" resp (fun dat => do
    let items ← liftEx (pyIter dat)
    for it in items do
      insertDyn "over_25_stats" it)

/-- The `run_task` closure of `ComprehensiveUpdateTask.execute`: dispatch
to the registered task instance, or warn on an unknown name. -/
def run_task (cl : FakeClient) (name : String) (kw : Kw) : M Unit :=
  match name with
  | "countries" => do logE (Event.invoke "countries" kw); executeCountries cl
  | "leagues" => do logE (Event.invoke "leagues" kw); executeLeagues cl kw
  | "matches" => do logE (Event.invoke "matches" kw); executeMatches cl kw
  | "league_stats" => do logE (Event.invoke "league_stats" kw); executeLeagueStats cl kw
  | "schedules" => do logE (Event.invoke "schedules" kw); executeSchedules cl kw
  | "teams" => do logE (Event.invoke "teams" kw); executeTeams cl kw
  | "players" => do logE (Event.invoke "players" kw); executePlayers cl kw
  | "referees" => do logE (Event.invoke "referees" kw); executeReferees cl kw
  | "team_data" => do logE (Event.invoke "team_data" kw); executeTeamData
  | "team_form" => do logE (Event.invoke "team_form" kw); executeTeamForm
  | "match_details" => do logE (Event.invoke "match_details" kw); executeMatchDetails cl kw
  | "league_table" => do logE (Event.invoke "league_table" kw); executeLeagueTable cl kw
  | "player_stats" => do logE (Event.invoke "player_stats" kw); executePlayerStats cl kw
  | "referee_stats" => do logE (Event.invoke "referee_stats" kw); executeRefereeStats cl kw
  | "btts_stats" => do logE (Event.invoke "btts_stats" kw); executeBtts cl
  | "over_25_stats" => do logE (Event.invoke "over_25_stats" kw); executeOver25 cl
  | other => logE (Event.unregistered other)

/-- `_get_ids_from_table` run against the current store, with the
missing-table warning. -/
def getIdsM (t c : String) : M (List SqlVal) :=
  fun s =>
    match alookup t s.db with
    | Option.none => .ok [] ⟨s.db, s.log ++ [Event.tableMissing t]⟩
    | some _ => .ok (getIdsFromTable s.db t c) s

def seasonTaskNames : List String :=
  ["league_stats", "schedules", "teams", "players", "referees", "league_table"]

/-- `ComprehensiveUpdateTask.execute`, LEVEL 0 section: the tasks with no
dependencies (only `countries`; the matches/btts/over25 runs are commented
out in the source). -/
def cascadeLevel0 (cl : FakeClient) : M Unit :=
  run_task cl "countries" kwEmpty

/-- LEVEL 1 section: one `leagues` run per distinct stored country id. -/
def cascadeLevel1 (cl : FakeClient) : M Unit := do
  let countryIds ← getIdsM "countries" "id"
  for cid in countryIds do
    run_task cl "leagues" (kwLeagues (some cid) false)

/-- LEVEL 2 section: each season-keyed task once per distinct stored
season id (the `stats := true` kwarg is passed to all of them). -/
def cascadeLevel2 (cl : FakeClient) : M Unit := do
  let seasonIds ← getIdsM "leagues" "id"
  for sid in seasonIds do
    for tname in seasonTaskNames do
      run_task cl tname (kwSeasonStats (some sid))

/-- LEVEL 3 section: team- and match-keyed tasks per stored id. -/
def cascadeLevel3 (cl : FakeClient) : M Unit := do
  let teamIds ← getIdsM "teams" "id"
  for tid in teamIds do
    run_task cl "team_data" (kwTeam (some tid))
    run_task cl "team_form" (kwTeam (some tid))
  let matchIds ← getIdsM "matches" "id"
  for mid in matchIds do
    run_task cl "match_details" (kwMatch (some mid))

/-- LEVEL 4 section: player- and referee-keyed stats tasks per stored id. -/
def cascadeLevel4 (cl : FakeClient) : M Unit := do
  let playerIds ← getIdsM "players" "id"
  for pid in playerIds do
    run_task cl "player_stats" (kwPlayer (some pid))
  let refIds ← getIdsM "referees" "id"
  for rid in refIds do
    run_task cl "referee_stats" (kwReferee (some rid))

/-- `ComprehensiveUpdateTask.execute`: the full cascading update, its five
level sections in source order. -/
def cascadeExecute (cl : FakeClient) : M Unit := do
  cascadeLevel0 cl
  cascadeLevel1 cl
  cascadeLevel2 cl
  cascadeLevel3 cl
  cascadeLevel4 cl

/-- Outcome of running a task from a given store: the uncaught exception
(if any), the final store, and the event trace — the state reached before
an exception is preserved. -/
structure RunResult where
  err : Option Err
  db : DB
  log : List Event
deriving Repr

/-- Run a task computation against a store with an empty trace. -/
def runM (m : M Unit) (db : DB) : RunResult :=
  match m.run ⟨db, []⟩ with
  | .ok _ s => ⟨Option.none, s.db, s.log⟩
  | .error e s => ⟨some e, s.db, s.log⟩

/-- Kwargs of the invocations of `task` in a trace, in order. -/
def invokeKws (log : List Event) (task : String) : List Kw :=
  log.filterMap (fun e =>
    match e with
    | .invoke n kw => if n = task then some kw else Option.none
    | _ => Option.none)

/-- Bound `id` values of the rows written to `table`, in order. -/
def writeIds (log : List Event) (table : String) : List (Option SqlVal) :=
  log.filterMap (fun e =>
    match e with
    | .write t idv => if t = table then some idv else Option.none
    | _ => Option.none)

def isWriteTo (table : String) : Event → Bool
  | .write t _ => t = table
  | _ => false

def isInvokeOf (task : String) : Event → Bool
  | .invoke n _ => n = task
  | _ => false

/-- Every event satisfying `p` occurs strictly before every event
satisfying `q` in the trace. -/
def allBefore (p q : Event → Bool) : List Event → Bool
  | [] => true
  | e :: rest => ((!q e) || rest.all (fun x => !p x)) && allBefore p q rest

/-! ## `ApiClient.get_league_players` pagination -/

/-- The comparison `max_page > 1` (`TypeError` on non-numbers). -/
def pyGtOne : PyVal → Except Err Bool
  | .int n => .ok (1 < n)
  | .float q => .ok (1 < q)
  | _ => .error Err.typeError

/-- Python dict assignment `d[k] = v`: update in place, append when new. -/
def dictSet (fs : List (String × PyVal)) (k : String) (v : PyVal) :
    List (String × PyVal) :=
  if fs.any (fun kv => kv.1 = k) then aupdate k v fs else fs ++ [(k, v)]

/-- `res["data"].extend(next_page["data"])`: look up `res["data"]`
(`KeyError` when absent), require a list to own `.extend`, then iterate
the argument and append. -/
def extendData (res np : PyVal) : Except Err PyVal :=
  match res with
  | .dict fs => do
      let cur ← pyGetItem res "data"
      match cur with
      | .list xs => do
          let nd ← pyGetItem np "data"
          let items ← pyIter nd
          .ok (.dict (dictSet fs "data" (.list (xs ++ items))))
      | _ => .error Err.attributeError
  | _ => .error Err.typeError

/-- `range(2, max_page + 1)`. -/
def pageRange (n : Int) : List Nat := List.range' 2 (n - 1).toNat

/-- The page loop of `get_league_players`: fetch each further page, and
when the response is truthy extend the accumulated `data` list. -/
def fetchPagesLoop (fetch : Nat → Option PyVal) : List Nat → PyVal → Except Err PyVal
  | [], res => .ok res
  | p :: ps, res =>
      match fetch p with
      | Option.none => fetchPagesLoop fetch ps res
      | some np =>
          if pyTruthy np then
            match extendData res np with
            | .ok res2 => fetchPagesLoop fetch ps res2
            | .error e => .error e
          else fetchPagesLoop fetch ps res

/-- `ApiClient.get_league_players` over a page-indexed fetch (page 1 is
the initial request without a `page` filter): when the first page is
truthy and reports `pager.max_page > 1`, all further pages are fetched
and their `data` lists concatenated onto the first page's. -/
def get_league_players (fetch : Nat → Option PyVal) : Except Err (Option PyVal) :=
  match fetch 1 with
  | Option.none => .ok Option.none
  | some res =>
      if pyTruthy res then do
        let pager ← pyGetItem res "pager"
        let mp ← pyGetItem pager "max_page"
        let gt ← pyGtOne mp
        if gt then
          match mp with
          | .int n => do
              let res' ← fetchPagesLoop fetch (pageRange n) res
              .ok (some res')
          | _ => .error Err.typeError
        else .ok (some res)
      else .ok (some res)

deriving instance DecidableEq for EStateM.Result

/-- Stepping lemma for staged evaluation of a task sequence: once the
first computation is known to succeed with state `s'`, the sequence
continues from `s'`. -/
theorem seqUnit_ok (x y : M Unit) (s s' : TraceSt) (h : x s = .ok () s') :
    (x >>= fun _ => y) s = y s' := by
  change EStateM.bind x (fun _ => y) s = y s'
  unfold EStateM.bind
  rw [h]

/-- Stepping lemma for staged evaluation: an exception in the first
computation is the outcome of the whole sequence. -/
theorem seqUnit_error (x y : M Unit) (s s' : TraceSt) (e : Err)
    (h : x s = .error e s') : (x >>= fun _ => y) s = .error e s' := by
  change EStateM.bind x (fun _ => y) s = .error e s'
  unfold EStateM.bind
  rw [h]

/-! ## Lemmas about the association-list primitives -/

theorem alookup_append_of_none {α : Type} {k : String} {l1 : List (String × α)}
    (l2 : List (String × α)) (h : alookup k l1 = Option.none) :
    alookup k (l1 ++ l2) = alookup k l2 := by
  induction l1 with
  | nil => rfl
  | cons p rest ih =>
      obtain ⟨k', v'⟩ := p
      by_cases hk : k' = k
      · simp [alookup, hk] at h
      · simp only [alookup, List.cons_append, if_neg hk] at h ⊢
        exact ih h

theorem alookup_append_of_some {α : Type} {k : String} {l1 : List (String × α)}
    {v : α} (l2 : List (String × α)) (h : alookup k l1 = some v) :
    alookup k (l1 ++ l2) = some v := by
  induction l1 with
  | nil => simp [alookup] at h
  | cons p rest ih =>
      obtain ⟨k', v'⟩ := p
      by_cases hk : k' = k
      · simp only [alookup, if_pos hk] at h
        simp only [List.cons_append, alookup, if_pos hk, h]
      · simp only [alookup, if_neg hk] at h
        simp only [List.cons_append, alookup, if_neg hk]
        exact ih h

theorem alookup_aupdate_self {α : Type} {k : String} {l : List (String × α)}
    {v0 : α} (v : α) (h : alookup k l = some v0) :
    alookup k (aupdate k v l) = some v := by
  induction l with
  | nil => simp [alookup] at h
  | cons p rest ih =>
      obtain ⟨k', v'⟩ := p
      by_cases hk : k' = k
      · simp [aupdate, alookup, hk]
      · simp only [alookup, if_neg hk] at h
        simp only [aupdate, if_neg hk, alookup]
        exact ih h

theorem alookup_aupdate_ne {α : Type} {k k' : String} {l : List (String × α)}
    (v : α) (h : k' ≠ k) : alookup k' (aupdate k v l) = alookup k' l := by
  induction l with
  | nil => rfl
  | cons p rest ih =>
      obtain ⟨k0, v0⟩ := p
      by_cases hk : k0 = k
      · subst hk
        simp only [aupdate, if_pos rfl, alookup]
        rw [if_neg (fun hc => h hc.symm), if_neg (fun hc => h hc.symm)]
      · simp only [aupdate, if_neg hk, alookup]
        by_cases hk0 : k0 = k'
        · rw [if_pos hk0, if_pos hk0]
        · rw [if_neg hk0, if_neg hk0]
          exact ih

theorem aupdate_self {α : Type} {k : String} {l : List (String × α)} {v : α}
    (h : alookup k l = some v) : aupdate k v l = l := by
  induction l with
  | nil => rfl
  | cons p rest ih =>
      obtain ⟨k', v'⟩ := p
      by_cases hk : k' = k
      · simp only [alookup, if_pos hk, Option.some.injEq] at h
        simp [aupdate, hk, h]
      · simp only [alookup, if_neg hk] at h
        simp [aupdate, hk, ih h]

theorem alookup_processRecord (r : Record) (c : String) :
    alookup c (processRecord r) = (alookup c r).map toSqlVal := by
  induction r with
  | nil => rfl
  | cons p rest ih =>
      obtain ⟨k, v⟩ := p
      by_cases hk : k = c
      · simp [processRecord, alookup, if_pos hk]
      · simp only [processRecord, List.map_cons, alookup, if_neg hk] at ih ⊢
        exact ih

theorem any_key_of_alookup {α : Type} {k : String} {r : List (String × α)} {v : α}
    (h : alookup k r = some v) : r.any (fun kv => kv.1 = k) = true := by
  induction r with
  | nil => simp [alookup] at h
  | cons p rest ih =>
      obtain ⟨k', v'⟩ := p
      by_cases hk : k' = k
      · simp [List.any_cons, hk]
      · simp only [alookup, if_neg hk] at h
        simp [List.any_cons, hk, ih h]

/-! ## Behaviour of `ensure_table_and_columns` on its own table -/

/-- The columns created for a fresh table from sample `r`. -/
def createdCols (r : Record) : List TableCol :=
  ⟨"id", SqlType.integer⟩ ::
    (r.filter (fun kv => kv.1 ≠ "id")).map (fun kv => ⟨kv.1, inferSqlType kv.2⟩)

/-- The columns added to an existing column list for sample `r`. -/
def addedCols (cols : List TableCol) (r : Record) : List TableCol :=
  (r.filter (fun kv => ¬ (cols.map (·.colName)).contains kv.1)).map
    (fun kv => ⟨kv.1, inferSqlType kv.2⟩)

theorem ensure_absent {db : DB} {t : String} (r : Record)
    (h : alookup t db = Option.none) :
    ensure_table_and_columns db t r =
      (db ++ [(t, ⟨createdCols r, [], 1⟩)], [DDL.createTable t]) := by
  simp [ensure_table_and_columns, h, createdCols]

theorem ensure_present {db : DB} {t : String} {tbl : Table} (r : Record)
    (h : alookup t db = some tbl) :
    ensure_table_and_columns db t r =
      (aupdate t ⟨tbl.cols ++ addedCols tbl.cols r, tbl.rows, tbl.nextId⟩ db,
        (addedCols tbl.cols r).map (fun c => DDL.addColumn t c.colName)) := by
  simp [ensure_table_and_columns, h, addedCols]

theorem ensure_lookup_absent {db : DB} {t : String} (r : Record)
    (h : alookup t db = Option.none) :
    alookup t (ensure_table_and_columns db t r).1 = some ⟨createdCols r, [], 1⟩ := by
  rw [ensure_absent r h]
  rw [alookup_append_of_none _ h]
  simp [alookup]

theorem ensure_lookup_present {db : DB} {t : String} {tbl : Table} (r : Record)
    (h : alookup t db = some tbl) :
    alookup t (ensure_table_and_columns db t r).1 =
      some ⟨tbl.cols ++ addedCols tbl.cols r, tbl.rows, tbl.nextId⟩ := by
  rw [ensure_present r h]
  exact alookup_aupdate_self _ h

theorem ensure_lookup_exists (db : DB) (t : String) (r : Record) :
    ∃ tbl1, alookup t (ensure_table_and_columns db t r).1 = some tbl1 := by
  cases h : alookup t db with
  | none => exact ⟨_, ensure_lookup_absent r h⟩
  | some tbl => exact ⟨_, ensure_lookup_present r h⟩

theorem rowVal_setRowId_self {p : Row} {w : Option SqlVal} (n : Int)
    (h : alookup "id" p = some w) :
    rowVal (setRowId p n) "id" = some (SqlVal.int n) := by
  unfold rowVal setRowId
  rw [alookup_aupdate_self _ h]
  rfl

theorem rowVal_setRowId_ne {p : Row} {c : String} (n : Int) (h : c ≠ "id") :
    rowVal (setRowId p n) c = rowVal p c := by
  unfold rowVal setRowId
  rw [alookup_aupdate_ne _ h]

theorem tableRows_aupdate (db : DB) (t : String) (tblOld tblNew : Table)
    (h : alookup t db = some tblOld) :
    tableRows (aupdate t tblNew db) t = tblNew.rows := by
  unfold tableRows
  rw [alookup_aupdate_self _ h]
  rfl

/-- C1 — Upsert-by-identity: writing a record whose `id` field carries the
integer identity `n` (records are dicts, so their keys are distinct)
leaves exactly one row with id `n` in the table, and that row holds
exactly the fields of this most recent record — every column the record
omits, or binds to `None`, reads as NULL (`(alookup c r).bind toSqlVal`
is `Option.none` in both cases). -/
theorem upsert_by_identity (db : DB) (t : String) (r : Record) (n : Int)
    (_hk : (r.map Prod.fst).Nodup) (hid : alookup "id" r = some (PyVal.int n)) :
    ∃ db', insert_or_update_dict db t r = Except.ok db' ∧
      ((tableRows db' t).filter
        (fun row => rowVal row "id" = some (SqlVal.int n))).length = 1 ∧
      ∀ row ∈ tableRows db' t, rowVal row "id" = some (SqlVal.int n) →
        ∀ c : String, rowVal row c = (alookup c r).bind toSqlVal := by
  obtain ⟨tbl1, htbl⟩ := ensure_lookup_exists db t r
  have hany : r.any (fun kv => kv.1 = "id") = true :=
    any_key_of_alookup hid
  have hproc : alookup "id" (processRecord r) = some (some (SqlVal.int n)) := by
    rw [alookup_processRecord, hid]; rfl
  have hresult : insert_or_update_dict db t r =
      Except.ok (aupdate t
        ⟨tbl1.cols,
         (tbl1.rows.filter (fun row => rowVal row "id" ≠ some (SqlVal.int n))) ++
           [setRowId (processRecord r) n],
         max tbl1.nextId (n + 1)⟩
        (ensure_table_and_columns db t r).1) := by
    simp only [insert_or_update_dict, htbl, hany, hproc, Option.join, rowIdCoerce,
      if_true, Option.some_bind, id_eq]
  have hprow : rowVal (setRowId (processRecord r) n) "id" = some (SqlVal.int n) :=
    rowVal_setRowId_self n hproc
  refine ⟨_, hresult, ?_, ?_⟩
  · rw [tableRows_aupdate _ _ _ _ htbl]
    show (List.filter _ (_ ++ [setRowId (processRecord r) n])).length = 1
    rw [List.filter_append]
    have h1 : List.filter
        (fun row => decide (rowVal row "id" = some (SqlVal.int n)))
        (tbl1.rows.filter (fun row => decide (rowVal row "id" ≠ some (SqlVal.int n)))) = [] := by
      rw [List.filter_eq_nil_iff]
      intro x hx
      have := (List.mem_filter.mp hx).2
      simp only [ne_eq, decide_not, Bool.not_eq_eq_eq_not, Bool.not_true,
        decide_eq_false_iff_not] at this
      simp [this]
    rw [h1]
    simp [hprow]
  · intro row' hmem hidv c
    rw [tableRows_aupdate _ _ _ _ htbl] at hmem
    rcases List.mem_append.mp hmem with hkept | hrow
    · exfalso
      have := (List.mem_filter.mp hkept).2
      simp only [ne_eq, decide_not] at this
      rw [hidv] at this
      simp at this
    · have : row' = setRowId (processRecord r) n := List.mem_singleton.mp hrow
      subst this
      by_cases hc : c = "id"
      · subst hc
        rw [hprow, hid]
        rfl
      · rw [rowVal_setRowId_ne n hc]
        unfold rowVal
        rw [alookup_processRecord]
        cases alookup c r <;> rfl

/-- The spec's concrete upsert example, first write: `{id:5, name:"A"}`. -/
def recA : Record := [("id", PyVal.int 5), ("name", PyVal.str "A")]

/-- The spec's concrete upsert example, second write:
`{id:5, name:"B", extra:1}`. -/
def recB : Record := [("id", PyVal.int 5), ("name", PyVal.str "B"), ("extra", PyVal.int 1)]

/-- The store after the first example write. -/
def dbAfterRecA : DB :=
  [("t", ⟨[⟨"id", SqlType.integer⟩, ⟨"name", SqlType.text⟩],
    [[("id", some (SqlVal.int 5)), ("name", some (SqlVal.text "A"))]], 6⟩)]

/-- Witness for C1, on the spec's own example: after writing
`{id:5, name:"A"}` and then `{id:5, name:"B", extra:1}` to the same
table, exactly one row for id 5 exists, holding `name="B"`, `extra=1`. -/
theorem upsert_by_identity_witness :
    insert_or_update_dict dbEmpty "t" recA = Except.ok dbAfterRecA ∧
    (recB.map Prod.fst).Nodup ∧
    alookup "id" recB = some (PyVal.int 5) ∧
    (∃ db', insert_or_update_dict dbAfterRecA "t" recB = Except.ok db' ∧
      ((tableRows db' "t").filter
        (fun row => rowVal row "id" = some (SqlVal.int 5))).length = 1 ∧
      ∀ row ∈ tableRows db' "t", rowVal row "id" = some (SqlVal.int 5) →
        ∀ c : String, rowVal row c = (alookup c recB).bind toSqlVal) ∧
    insert_or_update_dict dbAfterRecA "t" recB = Except.ok
      [("t", ⟨[⟨"id", SqlType.integer⟩, ⟨"name", SqlType.text⟩, ⟨"extra", SqlType.integer⟩],
        [[("id", some (SqlVal.int 5)), ("name", some (SqlVal.text "B")),
          ("extra", some (SqlVal.int 1))]], 6⟩)] :=
  ⟨by rfl, by decide, by rfl,
   upsert_by_identity dbAfterRecA "t" recB 5 (by decide) (by rfl),
   by rfl⟩

theorem mem_createdCols {r : Record} {kv : String × PyVal} (h : kv ∈ r) :
    kv.1 ∈ (createdCols r).map (·.colName) := by
  unfold createdCols
  by_cases hid : kv.1 = "id"
  · simp [hid]
  · simp only [List.map_cons, List.map_map, List.mem_cons]
    right
    refine List.mem_map.mpr ⟨kv, ?_, rfl⟩
    exact List.mem_filter.mpr ⟨h, by simp [hid]⟩

theorem mem_addedCols {cols : List TableCol} {r : Record} {kv : String × PyVal}
    (h : kv ∈ r) (hnot : kv.1 ∉ cols.map (·.colName)) :
    kv.1 ∈ (addedCols cols r).map (·.colName) := by
  unfold addedCols
  simp only [List.map_map]
  refine List.mem_map.mpr ⟨kv, ?_, rfl⟩
  refine List.mem_filter.mpr ⟨h, ?_⟩
  simp [hnot]

theorem key_mem_ensure_cols (db : DB) (t : String) (r : Record) :
    ∀ kv ∈ r, ∀ tbl1, alookup t (ensure_table_and_columns db t r).1 = some tbl1 →
      kv.1 ∈ tbl1.cols.map (·.colName) := by
  intro kv hkv tbl1 h1
  cases h : alookup t db with
  | none =>
      rw [ensure_lookup_absent r h] at h1
      obtain rfl := (Option.some.inj h1).symm
      exact mem_createdCols hkv
  | some tbl =>
      rw [ensure_lookup_present r h] at h1
      obtain rfl := (Option.some.inj h1).symm
      show kv.1 ∈ (tbl.cols ++ addedCols tbl.cols r).map (·.colName)
      rw [List.map_append, List.mem_append]
      by_cases hmem : kv.1 ∈ tbl.cols.map (·.colName)
      · exact Or.inl hmem
      · exact Or.inr (mem_addedCols hkv hmem)

theorem addedCols_nil {cols : List TableCol} {r : Record}
    (h : ∀ kv ∈ r, kv.1 ∈ cols.map (·.colName)) : addedCols cols r = [] := by
  unfold addedCols
  rw [List.filter_eq_nil_iff.mpr, List.map_nil]
  intro kv hkv
  simp [h kv hkv]

theorem ensure_noop (db : DB) (t : String) (r : Record) {tbl : Table}
    (htbl : alookup t db = some tbl)
    (h : ∀ kv ∈ r, kv.1 ∈ tbl.cols.map (·.colName)) :
    ensure_table_and_columns db t r = (db, []) := by
  rw [ensure_present r htbl, addedCols_nil h]
  rw [List.append_nil, List.map_nil]
  have : (⟨tbl.cols, tbl.rows, tbl.nextId⟩ : Table) = tbl := rfl
  rw [this, aupdate_self htbl]

/-- C9 — ensureSchema idempotence: a second `ensure_table_and_columns`
call with the same sample performs no table creation and no column
addition (its DDL list is empty and the store is unchanged); an empty
sample creates the table with only the identity column when the table is
absent, and is a no-op when it exists. -/
theorem ensure_schema_idempotent :
    (∀ db t r, (r.map Prod.fst).Nodup →
      ensure_table_and_columns (ensure_table_and_columns db t r).1 t r =
        ((ensure_table_and_columns db t r).1, [])) ∧
    (∀ db t, alookup t db = Option.none →
      ensure_table_and_columns db t [] =
        (db ++ [(t, ⟨[⟨"id", SqlType.integer⟩], [], 1⟩)], [DDL.createTable t])) ∧
    (∀ db t tbl, alookup t db = some tbl →
      ensure_table_and_columns db t [] = (db, [])) := by
  refine ⟨?_, ?_, ?_⟩
  · intro db t r _
    obtain ⟨tbl1, htbl⟩ := ensure_lookup_exists db t r
    exact ensure_noop _ t r htbl (fun kv hkv => key_mem_ensure_cols db t r kv hkv tbl1 htbl)
  · intro db t h
    exact ensure_absent [] h
  · intro db t tbl h
    exact ensure_noop _ t [] h (by simp)

/-- Witness for C9 at concrete instances: the idempotent second call for
the sample `{id:5, name:"A"}`, table creation from an empty sample, and
the empty-sample no-op on an existing table. -/
theorem ensure_schema_idempotent_witness :
    (recA.map Prod.fst).Nodup ∧
    ensure_table_and_columns (ensure_table_and_columns dbEmpty "t" recA).1 "t" recA =
      ((ensure_table_and_columns dbEmpty "t" recA).1, []) ∧
    alookup "t" dbEmpty = Option.none ∧
    ensure_table_and_columns dbEmpty "t" [] =
      (dbEmpty ++ [("t", ⟨[⟨"id", SqlType.integer⟩], [], 1⟩)], [DDL.createTable "t"]) ∧
    alookup "t" dbAfterRecA =
      some ⟨[⟨"id", SqlType.integer⟩, ⟨"name", SqlType.text⟩],
        [[("id", some (SqlVal.int 5)), ("name", some (SqlVal.text "A"))]], 6⟩ ∧
    ensure_table_and_columns dbAfterRecA "t" [] = (dbAfterRecA, []) :=
  ⟨by decide,
   ensure_schema_idempotent.1 dbEmpty "t" recA (by decide),
   rfl,
   ensure_schema_idempotent.2.1 dbEmpty "t" rfl,
   rfl,
   ensure_schema_idempotent.2.2 dbAfterRecA "t" _ rfl⟩

/-- A sequence of writes to the same table, as performed by
`insert_or_update_dict` calling `ensure_table_and_columns` before each
write (only the schema part, which the inserts do not touch). -/
def applyEnsures (db : DB) (t : String) (rs : List Record) : DB :=
  rs.foldl (fun d r => (ensure_table_and_columns d t r).1) db

theorem mem_addedCols_iff {cols : List TableCol} {r : Record} {c : String} :
    c ∈ (addedCols cols r).map (·.colName) ↔
      (c ∈ r.map Prod.fst ∧ c ∉ cols.map (·.colName)) := by
  unfold addedCols
  constructor
  · intro h
    obtain ⟨col, hcol, rfl⟩ := List.mem_map.mp h
    obtain ⟨kv, hkv, rfl⟩ := List.mem_map.mp hcol
    have hf := List.mem_filter.mp hkv
    refine ⟨List.mem_map.mpr ⟨kv, hf.1, rfl⟩, ?_⟩
    intro hmem
    have hf2 := hf.2
    simp only [decide_eq_true_eq] at hf2
    exact hf2 (List.elem_eq_true_of_mem hmem)
  · rintro ⟨hkeys, hnot⟩
    obtain ⟨kv, hkv, rfl⟩ := List.mem_map.mp hkeys
    refine List.mem_map.mpr ⟨⟨kv.1, inferSqlType kv.2⟩, ?_, rfl⟩
    refine List.mem_map.mpr ⟨kv, ?_, rfl⟩
    refine List.mem_filter.mpr ⟨hkv, ?_⟩
    simp only [decide_eq_true_eq]
    intro hcont
    exact hnot (List.mem_of_elem_eq_true hcont)

theorem mem_createdCols_iff {r : Record} {c : String} :
    c ∈ (createdCols r).map (·.colName) ↔ (c = "id" ∨ c ∈ r.map Prod.fst) := by
  unfold createdCols
  rw [List.map_cons, List.mem_cons]
  constructor
  · rintro (rfl | h)
    · exact Or.inl rfl
    · obtain ⟨col, hcol, rfl⟩ := List.mem_map.mp h
      obtain ⟨kv, hkv, rfl⟩ := List.mem_map.mp hcol
      exact Or.inr (List.mem_map.mpr ⟨kv, (List.mem_filter.mp hkv).1, rfl⟩)
  · rintro (rfl | hkeys)
    · exact Or.inl rfl
    · by_cases hc : c = "id"
      · exact Or.inl hc
      · right
        obtain ⟨kv, hkv, rfl⟩ := List.mem_map.mp hkeys
        refine List.mem_map.mpr ⟨⟨kv.1, inferSqlType kv.2⟩, ?_, rfl⟩
        refine List.mem_map.mpr ⟨kv, ?_, rfl⟩
        exact List.mem_filter.mpr ⟨hkv, by simp [hc]⟩

theorem tableCols_ensure_present {db : DB} {t : String} {tbl : Table} (r : Record)
    (h : alookup t db = some tbl) :
    tableCols (ensure_table_and_columns db t r).1 t = tbl.cols ++ addedCols tbl.cols r := by
  unfold tableCols
  rw [ensure_lookup_present r h]
  rfl

theorem tableCols_ensure_absent {db : DB} {t : String} (r : Record)
    (h : alookup t db = Option.none) :
    tableCols (ensure_table_and_columns db t r).1 t = createdCols r := by
  unfold tableCols
  rw [ensure_lookup_absent r h]
  rfl

theorem ensure_mem_step {db : DB} {t : String} {tbl : Table} (r : Record) (c : String)
    (h : alookup t db = some tbl) :
    (c ∈ (tableCols (ensure_table_and_columns db t r).1 t).map (·.colName) ↔
      c ∈ (tableCols db t).map (·.colName) ∨ c ∈ r.map Prod.fst) := by
  rw [tableCols_ensure_present r h]
  have hdb : tableCols db t = tbl.cols := by
    unfold tableCols; rw [h]; rfl
  rw [hdb, List.map_append, List.mem_append, mem_addedCols_iff]
  by_cases hmem : c ∈ tbl.cols.map (·.colName) <;> by_cases hkeys : c ∈ r.map Prod.fst <;>
    simp [hmem, hkeys]

theorem applyEnsures_mem {t : String} (rs : List Record) (c : String) :
    ∀ db tbl, alookup t db = some tbl →
      (c ∈ (tableCols (applyEnsures db t rs) t).map (·.colName) ↔
        c ∈ (tableCols db t).map (·.colName) ∨ ∃ r ∈ rs, c ∈ r.map Prod.fst) := by
  induction rs with
  | nil =>
      intro db tbl h
      simp [applyEnsures]
  | cons r0 rest ih =>
      intro db tbl h
      have hstep := ensure_mem_step r0 c h
      obtain ⟨tbl1, htbl1⟩ := ensure_lookup_exists db t r0
      have hrest := ih (ensure_table_and_columns db t r0).1 tbl1 htbl1
      show (c ∈ (tableCols (applyEnsures (ensure_table_and_columns db t r0).1 t rest) t).map (·.colName) ↔ _)
      rw [hrest, hstep]
      constructor
      · rintro ((hold | hk) | ⟨r, hr, hc⟩)
        · exact Or.inl hold
        · exact Or.inr ⟨r0, List.mem_cons_self _ _, hk⟩
        · exact Or.inr ⟨r, List.mem_cons_of_mem _ hr, hc⟩
      · rintro (hold | ⟨r, hr, hc⟩)
        · exact Or.inl (Or.inl hold)
        · rcases List.mem_cons.mp hr with rfl | hr2
          · exact Or.inl (Or.inr hc)
          · exact Or.inr ⟨r, hr2, hc⟩

/-- C2 (amended) — Schema monotonicity: (1) an `ensure_table_and_columns`
call only ever appends columns — the prior column list (names and storage
classes) is a prefix of the new one, so no column is removed or retyped;
(2) for a non-empty write sequence into a fresh table, the resulting
column-name set is exactly the union of all keys ever seen plus the
always-created identity column `id`. -/
theorem schema_growth_monotone_union :
    (∀ db t r, ∃ ext,
      tableCols (ensure_table_and_columns db t r).1 t = tableCols db t ++ ext) ∧
    (∀ t rs, rs ≠ [] → (∀ r ∈ rs, (r.map Prod.fst).Nodup) →
      ∀ c, c ∈ (tableCols (applyEnsures dbEmpty t rs) t).map (·.colName) ↔
        (c = "id" ∨ ∃ r ∈ rs, c ∈ r.map Prod.fst)) := by
  constructor
  · intro db t r
    cases h : alookup t db with
    | none =>
        refine ⟨createdCols r, ?_⟩
        rw [tableCols_ensure_absent r h]
        have hnil : tableCols db t = [] := by unfold tableCols; rw [h]; rfl
        rw [hnil]
        rfl
    | some tbl =>
        refine ⟨addedCols tbl.cols r, ?_⟩
        rw [tableCols_ensure_present r h]
        have htc : tableCols db t = tbl.cols := by unfold tableCols; rw [h]; rfl
        rw [htc]
  · intro t rs hne _hnd c
    match rs, hne with
    | r0 :: rest, _ =>
        have h0 : alookup t dbEmpty = Option.none := rfl
        obtain ⟨tbl1, htbl1⟩ := ensure_lookup_exists dbEmpty t r0
        have hrest := applyEnsures_mem rest c (ensure_table_and_columns dbEmpty t r0).1 tbl1 htbl1
        show c ∈ (tableCols (applyEnsures (ensure_table_and_columns dbEmpty t r0).1 t rest) t).map (·.colName) ↔ _
        rw [hrest, tableCols_ensure_absent r0 h0, mem_createdCols_iff]
        constructor
        · rintro ((rfl | hk) | ⟨r, hr, hc⟩)
          · exact Or.inl rfl
          · exact Or.inr ⟨r0, List.mem_cons_self _ _, hk⟩
          · exact Or.inr ⟨r, List.mem_cons_of_mem _ hr, hc⟩
        · rintro (rfl | ⟨r, hr, hc⟩)
          · exact Or.inl (Or.inl rfl)
          · rcases List.mem_cons.mp hr with rfl | hr2
            · exact Or.inl (Or.inr hc)
            · exact Or.inr ⟨r, hr2, hc⟩

/-- Counterexample to C2 as stated: after writing `{name:"A"}` to a fresh
table, the column set is `{id, name}`, not the bare key union `{name}` —
the loader always creates an `id` primary-key column even when no record
carries `id`. -/
theorem schema_union_counterexample :
    "id" ∈ (tableCols (applyEnsures dbEmpty "t" [[("name", PyVal.str "A")]]) "t").map (·.colName) ∧
    "id" ∉ (([("name", PyVal.str "A")] : Record).map Prod.fst) := by
  decide

/-- Witness for C2 (amended) at the concrete write sequence
`{id:5, name:"A"}` then `{id:5, name:"B", extra:1}`. -/
theorem schema_growth_witness :
    ([recA, recB] : List Record) ≠ [] ∧
    (∀ r ∈ ([recA, recB] : List Record), (r.map Prod.fst).Nodup) ∧
    ("extra" ∈ (tableCols (applyEnsures dbEmpty "t" [recA, recB]) "t").map (·.colName) ↔
      ("extra" = "id" ∨ ∃ r ∈ ([recA, recB] : List Record), "extra" ∈ r.map Prod.fst)) ∧
    (∃ ext, tableCols (ensure_table_and_columns dbAfterRecA "t" recB).1 "t" =
      tableCols dbAfterRecA "t" ++ ext) :=
  ⟨List.cons_ne_nil _ _, by decide,
   schema_growth_monotone_union.2 "t" [recA, recB] (List.cons_ne_nil _ _) (by decide) "extra",
   schema_growth_monotone_union.1 dbAfterRecA "t" recB⟩

/-- C7 — distinctIdentities semantics: `_get_ids_from_table` returns an
empty list (not an error) when the table was never created; when the
table exists and the column is present, it returns exactly the distinct
(​no duplicates) non-NULL values of that column. -/
theorem distinct_identities_spec (db : DB) (t c : String) :
    (alookup t db = Option.none → getIdsFromTable db t c = []) ∧
    (∀ tbl, alookup t db = some tbl → c ∈ tbl.cols.map (·.colName) →
      ((getIdsFromTable db t c).Nodup ∧
       ∀ v, v ∈ getIdsFromTable db t c ↔ ∃ row ∈ tbl.rows, rowVal row c = some v)) := by
  constructor
  · intro h
    unfold getIdsFromTable
    rw [h]
  · intro tbl h hc
    have hval : getIdsFromTable db t c =
        (tbl.rows.filterMap (fun row => rowVal row c)).dedup := by
      unfold getIdsFromTable
      rw [h]
      simp [hc]
    rw [hval]
    refine ⟨List.nodup_dedup _, ?_⟩
    intro v
    rw [List.mem_dedup, List.mem_filterMap]

/-- Witness for C7: a never-created table yields `[]`, and the `id`
column of the example table yields exactly its stored non-NULL values. -/
theorem distinct_identities_witness :
    (alookup "nowhere" dbEmpty = Option.none) ∧
    getIdsFromTable dbEmpty "nowhere" "id" = [] ∧
    (alookup "t" dbAfterRecA =
      some ⟨[⟨"id", SqlType.integer⟩, ⟨"name", SqlType.text⟩],
        [[("id", some (SqlVal.int 5)), ("name", some (SqlVal.text "A"))]], 6⟩) ∧
    ("id" ∈ ([⟨"id", SqlType.integer⟩, ⟨"name", SqlType.text⟩] : List TableCol).map (·.colName)) ∧
    (getIdsFromTable dbAfterRecA "t" "id").Nodup ∧
    (SqlVal.int 5 ∈ getIdsFromTable dbAfterRecA "t" "id" ↔
      ∃ row ∈ [[("id", some (SqlVal.int 5)), ("name", some (SqlVal.text "A"))]],
        rowVal row "id" = some (SqlVal.int 5)) :=
  ⟨rfl,
   (distinct_identities_spec dbEmpty "nowhere" "id").1 rfl,
   rfl,
   by decide,
   ((distinct_identities_spec dbAfterRecA "t" "id").2 _ rfl (by decide)).1,
   ((distinct_identities_spec dbAfterRecA "t" "id").2 _ rfl (by decide)).2 (SqlVal.int 5)⟩

/-- C6 — Missing required parameter: each task with a resource-specific
required parameter, when executed without it, prints a descriptive error
and returns: no exception escapes, the store is untouched, and the trace
holds only the report — in particular no remote fetch and no write
happened. -/
theorem missing_param_fail_fast (cl : FakeClient) (db : DB) :
    runM (executeLeagueStats cl kwEmpty) db =
      ⟨Option.none, db, [Event.missingParam "season_id" "league_stats"]⟩ ∧
    runM (executeSchedules cl kwEmpty) db =
      ⟨Option.none, db, [Event.missingParam "season_id" "schedules"]⟩ ∧
    runM (executeTeams cl kwEmpty) db =
      ⟨Option.none, db, [Event.missingParam "season_id" "teams"]⟩ ∧
    runM (executePlayers cl kwEmpty) db =
      ⟨Option.none, db, [Event.missingParam "season_id" "players"]⟩ ∧
    runM (executeReferees cl kwEmpty) db =
      ⟨Option.none, db, [Event.missingParam "season_id" "referees"]⟩ ∧
    runM (executeLeagueTable cl kwEmpty) db =
      ⟨Option.none, db, [Event.missingParam "season_id" "league_table"]⟩ ∧
    runM (executeMatchDetails cl kwEmpty) db =
      ⟨Option.none, db, [Event.missingParam "match_id" "match_details"]⟩ ∧
    runM (executePlayerStats cl kwEmpty) db =
      ⟨Option.none, db, [Event.missingParam "player_id" "player_stats"]⟩ ∧
    runM (executeRefereeStats cl kwEmpty) db =
      ⟨Option.none, db, [Event.missingParam "referee_id" "referee_stats"]⟩ :=
  ⟨rfl, rfl, rfl, rfl, rfl, rfl, rfl, rfl, rfl⟩

/-- C10 — Zero-valued required IDs are treated as missing: the presence
check is a Python truthiness test (`if not season_id:` etc.), so an
explicitly supplied id of `0` takes exactly the missing-parameter path:
the run equals the run without the parameter, reporting the missing-param
error with no fetch and no write. -/
theorem zero_id_treated_as_missing (cl : FakeClient) (db : DB) :
    (runM (executeLeagueStats cl (kwSeason (some (SqlVal.int 0)))) db =
        runM (executeLeagueStats cl kwEmpty) db ∧
      runM (executeLeagueStats cl (kwSeason (some (SqlVal.int 0)))) db =
        ⟨Option.none, db, [Event.missingParam "season_id" "league_stats"]⟩) ∧
    (runM (executeSchedules cl (kwSeason (some (SqlVal.int 0)))) db =
        runM (executeSchedules cl kwEmpty) db ∧
      runM (executeSchedules cl (kwSeason (some (SqlVal.int 0)))) db =
        ⟨Option.none, db, [Event.missingParam "season_id" "schedules"]⟩) ∧
    (runM (executeTeams cl (kwSeason (some (SqlVal.int 0)))) db =
        runM (executeTeams cl kwEmpty) db ∧
      runM (executeTeams cl (kwSeason (some (SqlVal.int 0)))) db =
        ⟨Option.none, db, [Event.missingParam "season_id" "teams"]⟩) ∧
    (runM (executePlayers cl (kwSeason (some (SqlVal.int 0)))) db =
        runM (executePlayers cl kwEmpty) db ∧
      runM (executePlayers cl (kwSeason (some (SqlVal.int 0)))) db =
        ⟨Option.none, db, [Event.missingParam "season_id" "players"]⟩) ∧
    (runM (executeReferees cl (kwSeason (some (SqlVal.int 0)))) db =
        runM (executeReferees cl kwEmpty) db ∧
      runM (executeReferees cl (kwSeason (some (SqlVal.int 0)))) db =
        ⟨Option.none, db, [Event.missingParam "season_id" "referees"]⟩) ∧
    (runM (executeLeagueTable cl (kwSeason (some (SqlVal.int 0)))) db =
        runM (executeLeagueTable cl kwEmpty) db ∧
      runM (executeLeagueTable cl (kwSeason (some (SqlVal.int 0)))) db =
        ⟨Option.none, db, [Event.missingParam "season_id" "league_table"]⟩) ∧
    (runM (executeMatchDetails cl (kwMatch (some (SqlVal.int 0)))) db =
        runM (executeMatchDetails cl kwEmpty) db ∧
      runM (executeMatchDetails cl (kwMatch (some (SqlVal.int 0)))) db =
        ⟨Option.none, db, [Event.missingParam "match_id" "match_details"]⟩) ∧
    (runM (executePlayerStats cl (kwPlayer (some (SqlVal.int 0)))) db =
        runM (executePlayerStats cl kwEmpty) db ∧
      runM (executePlayerStats cl (kwPlayer (some (SqlVal.int 0)))) db =
        ⟨Option.none, db, [Event.missingParam "player_id" "player_stats"]⟩) ∧
    (runM (executeRefereeStats cl (kwReferee (some (SqlVal.int 0)))) db =
        runM (executeRefereeStats cl kwEmpty) db ∧
      runM (executeRefereeStats cl (kwReferee (some (SqlVal.int 0)))) db =
        ⟨Option.none, db, [Event.missingParam "referee_id" "referee_stats"]⟩) :=
  ⟨⟨rfl, rfl⟩, ⟨rfl, rfl⟩, ⟨rfl, rfl⟩, ⟨rfl, rfl⟩, ⟨rfl, rfl⟩, ⟨rfl, rfl⟩,
   ⟨rfl, rfl⟩, ⟨rfl, rfl⟩, ⟨rfl, rfl⟩⟩

/-- A fake Remote Data Source that returns no data for every fetch. -/
def clientNone : FakeClient :=
  ⟨Option.none, fun _ _ => Option.none, fun _ => Option.none, fun _ => Option.none,
   fun _ => Option.none, fun _ _ => Option.none, fun _ => Option.none,
   fun _ => Option.none, fun _ => Option.none, fun _ => Option.none,
   fun _ => Option.none, fun _ => Option.none, Option.none, Option.none⟩

/-- A fake source whose BTTS/Over-2.5 endpoints return a dict under
`data` (the shape these endpoints actually return, per the source's own
TODO comments) and whose country endpoint does the same. -/
def clientDictData : FakeClient :=
  { clientNone with
    btts := some (.dict [("data", .dict [("top_teams", .int 1)])])
    over25 := some (.dict [("data", .dict [("top_teams", .int 1)])])
    countries := some (.dict [("data", .dict [("1", .str "X")])]) }

/-- C5 — Malformed response tolerance fails: a response whose `data`
value is a dict (as the BTTS and Over-2.5 endpoints return) does not take
the "no data" path — the BTTS/Over-2.5 tasks iterate the dict's keys and
hand a string to `insert_or_update_dict`, which raises `AttributeError`
on `data_dict.items()`; the countries task crashes subscripting the dict
with `[0]` (`KeyError`).  The store is left untouched and no "no data"
report is printed — the tasks crash instead of reporting. -/
theorem malformed_dict_data_crashes :
    runM (executeBtts clientDictData) dbEmpty =
      ⟨some Err.attributeError, dbEmpty, [Event.fetch "stats-data-btts" []]⟩ ∧
    runM (executeOver25 clientDictData) dbEmpty =
      ⟨some Err.attributeError, dbEmpty, [Event.fetch "stats-data-over25" []]⟩ ∧
    runM (executeCountries clientDictData) dbEmpty =
      ⟨some Err.keyError, dbEmpty, [Event.fetch "country-list" []]⟩ :=
  ⟨rfl, rfl, rfl⟩

/-! ## The spec's cascade scenario: one country, one league/season -/

/-- Country endpoint payload: a single country with id 1. -/
def oneCountryData : PyVal :=
  .dict [("data", .list [.dict [("id", .int 1), ("name", .str "X")]])]

/-- League endpoint payload: one league with a single nested season
(id 10). -/
def oneLeagueData : PyVal :=
  .dict [("data", .list [.dict [("name", .str "L"),
    ("season", .list [.dict [("id", .int 10), ("year", .int 2024)]]),
    ("country", .str "X"), ("league_name", .str "LN"), ("image", .str "img")]])]

/-- Fake source for the cascade scenario: one country, its one
league/season, nothing for every other resource. -/
def client1 : FakeClient :=
  { clientNone with
    countries := some oneCountryData
    leagues := fun cid _ =>
      if cid = some (SqlVal.int 1) then some oneLeagueData else Option.none }

def cas1log0 : List Event :=
  [Event.invoke "countries" kwEmpty, Event.fetch "country-list" [],
   Event.write "countries" (some (SqlVal.int 1))]

/-- The countries table produced by level 0. -/
def countriesTbl : Table :=
  ⟨[⟨"id", SqlType.integer⟩, ⟨"name", SqlType.text⟩],
   [[("id", some (SqlVal.int 1)), ("name", some (SqlVal.text "X"))]], 2⟩

/-- The leagues table produced by level 1. -/
def leaguesTbl : Table :=
  ⟨[⟨"id", SqlType.integer⟩, ⟨"name", SqlType.text⟩, ⟨"season", SqlType.integer⟩,
    ⟨"country", SqlType.text⟩, ⟨"league_name", SqlType.text⟩, ⟨"image", SqlType.text⟩],
   [[("id", some (SqlVal.int 10)), ("name", some (SqlVal.text "L")),
     ("season", some (SqlVal.int 2024)), ("country", some (SqlVal.text "X")),
     ("league_name", some (SqlVal.text "LN")), ("image", some (SqlVal.text "img"))]], 11⟩

def cas1s1 : TraceSt := ⟨[("countries", countriesTbl)], cas1log0⟩

def cas1log1 : List Event :=
  cas1log0 ++ [Event.invoke "leagues" (kwLeagues (some (SqlVal.int 1)) false),
    Event.fetch "league-list" [SqlVal.int 1], Event.write "leagues" (some (SqlVal.int 10))]

def cas1s2 : TraceSt := ⟨[("countries", countriesTbl), ("leagues", leaguesTbl)], cas1log1⟩

/-- The three events of one no-data season task run at season id 10. -/
def seasonTaskEvents (t ep : String) : List Event :=
  [Event.invoke t (kwSeasonStats (some (SqlVal.int 10))),
   Event.fetch ep [SqlVal.int 10], Event.noData t]

def cas1log2 : List Event :=
  cas1log1 ++ (seasonTaskEvents "league_stats" "league-statistics" ++
    seasonTaskEvents "schedules" "league-matches" ++
    seasonTaskEvents "teams" "league-teams" ++
    seasonTaskEvents "players" "league-players" ++
    seasonTaskEvents "referees" "league-referees" ++
    seasonTaskEvents "league_table" "league-tables")

def cas1s3 : TraceSt := ⟨[("countries", countriesTbl), ("leagues", leaguesTbl)], cas1log2⟩

def cas1log3 : List Event :=
  cas1log2 ++ [Event.tableMissing "teams", Event.tableMissing "matches"]

def cas1s4 : TraceSt := ⟨[("countries", countriesTbl), ("leagues", leaguesTbl)], cas1log3⟩

def cas1log4 : List Event :=
  cas1log3 ++ [Event.tableMissing "players", Event.tableMissing "referees"]

def cas1s5 : TraceSt := ⟨[("countries", countriesTbl), ("leagues", leaguesTbl)], cas1log4⟩

set_option maxHeartbeats 1000000 in
theorem cas1lvl0 : cascadeLevel0 client1 ⟨dbEmpty, []⟩ = .ok () cas1s1 := by decide

set_option maxHeartbeats 1000000 in
theorem cas1lvl1 : cascadeLevel1 client1 cas1s1 = .ok () cas1s2 := by decide

set_option maxHeartbeats 2000000 in
theorem cas1lvl2 : cascadeLevel2 client1 cas1s2 = .ok () cas1s3 := by decide

set_option maxHeartbeats 1000000 in
theorem cas1lvl3 : cascadeLevel3 client1 cas1s3 = .ok () cas1s4 := by decide

set_option maxHeartbeats 1000000 in
theorem cas1lvl4 : cascadeLevel4 client1 cas1s4 = .ok () cas1s5 := by decide

theorem cas1exec : cascadeExecute client1 ⟨dbEmpty, []⟩ = .ok () cas1s5 := by
  rw [cascadeExecute]
  rw [seqUnit_ok _ _ _ _ cas1lvl0]
  rw [seqUnit_ok _ _ _ _ cas1lvl1]
  rw [seqUnit_ok _ _ _ _ cas1lvl2]
  rw [seqUnit_ok _ _ _ _ cas1lvl3]
  exact cas1lvl4

/-- The full cascade run of the scenario. -/
def cas1run : RunResult := runM (cascadeExecute client1) dbEmpty

theorem cas1run_eq : cas1run = ⟨Option.none, cas1s5.db, cas1s5.log⟩ := by
  unfold cas1run runM
  rw [show (cascadeExecute client1).run ⟨dbEmpty, []⟩ = .ok () cas1s5 from cas1exec]

/-- C3 — Cascade level ordering: running the full cascade from an empty
store against the fake source returning one country (id 1) and its one
league/season (id 10) completes without an exception; the level-1
`leagues` task is invoked exactly once per distinct country id persisted
by level 0 (their id lists coincide), each of the six level-2 season
tasks is invoked exactly once per distinct season id persisted by level 1,
and no level-1 (resp. level-2) invocation occurs before every level-0
(resp. level-1) row has been committed to the store. -/
theorem cascade_level_ordering :
    cas1run.err = Option.none ∧
    writeIds cas1run.log "countries" = [some (SqlVal.int 1)] ∧
    invokeKws cas1run.log "leagues" = [kwLeagues (some (SqlVal.int 1)) false] ∧
    (invokeKws cas1run.log "leagues").map Kw.country_id = writeIds cas1run.log "countries" ∧
    allBefore (isWriteTo "countries") (isInvokeOf "leagues") cas1run.log = true ∧
    writeIds cas1run.log "leagues" = [some (SqlVal.int 10)] ∧
    invokeKws cas1run.log "league_stats" = [kwSeasonStats (some (SqlVal.int 10))] ∧
    (invokeKws cas1run.log "league_stats").map Kw.season_id = writeIds cas1run.log "leagues" ∧
    allBefore (isWriteTo "leagues") (isInvokeOf "league_stats") cas1run.log = true ∧
    invokeKws cas1run.log "schedules" = [kwSeasonStats (some (SqlVal.int 10))] ∧
    (invokeKws cas1run.log "schedules").map Kw.season_id = writeIds cas1run.log "leagues" ∧
    allBefore (isWriteTo "leagues") (isInvokeOf "schedules") cas1run.log = true ∧
    invokeKws cas1run.log "teams" = [kwSeasonStats (some (SqlVal.int 10))] ∧
    (invokeKws cas1run.log "teams").map Kw.season_id = writeIds cas1run.log "leagues" ∧
    allBefore (isWriteTo "leagues") (isInvokeOf "teams") cas1run.log = true ∧
    invokeKws cas1run.log "players" = [kwSeasonStats (some (SqlVal.int 10))] ∧
    (invokeKws cas1run.log "players").map Kw.season_id = writeIds cas1run.log "leagues" ∧
    allBefore (isWriteTo "leagues") (isInvokeOf "players") cas1run.log = true ∧
    invokeKws cas1run.log "referees" = [kwSeasonStats (some (SqlVal.int 10))] ∧
    (invokeKws cas1run.log "referees").map Kw.season_id = writeIds cas1run.log "leagues" ∧
    allBefore (isWriteTo "leagues") (isInvokeOf "referees") cas1run.log = true ∧
    invokeKws cas1run.log "league_table" = [kwSeasonStats (some (SqlVal.int 10))] ∧
    (invokeKws cas1run.log "league_table").map Kw.season_id = writeIds cas1run.log "leagues" ∧
    allBefore (isWriteTo "leagues") (isInvokeOf "league_table") cas1run.log = true := by
  rw [cas1run_eq]
  decide

/-! ## Cascade failure scenarios: storage error vs handled no-data -/

/-- Country endpoint payload with two countries (ids 1 and 2). -/
def twoCountriesData : PyVal :=
  .dict [("data", .list [.dict [("id", .int 1), ("name", .str "A")],
                         .dict [("id", .int 2), ("name", .str "B")]])]

/-- A league payload whose nested season carries a non-numeric id: the
flattened record's `id` cannot be coerced into the INTEGER primary-key
column, so persisting it raises a storage `datatype mismatch`. -/
def badLeagueData : PyVal :=
  .dict [("data", .list [.dict [("name", .str "L"),
    ("season", .list [.dict [("id", .str "badid"), ("year", .int 2024)]]),
    ("country", .str "A"), ("league_name", .str "LL"), ("image", .str "i")]])]

/-- Fake source: two countries; the first country's leagues fail during
persistence, the second country's leagues are valid. -/
def client2 : FakeClient :=
  { clientNone with
    countries := some twoCountriesData
    leagues := fun cid _ =>
      if cid = some (SqlVal.int 1) then some badLeagueData
      else if cid = some (SqlVal.int 2) then some oneLeagueData
      else Option.none }

/-- Fake source: two countries; the first country's leagues fetch yields
no data (a handled failure outcome), the second country's are valid. -/
def client3 : FakeClient :=
  { clientNone with
    countries := some twoCountriesData
    leagues := fun cid _ =>
      if cid = some (SqlVal.int 2) then some oneLeagueData else Option.none }

/-- The countries table holding both countries. -/
def countries2Tbl : Table :=
  ⟨[⟨"id", SqlType.integer⟩, ⟨"name", SqlType.text⟩],
   [[("id", some (SqlVal.int 1)), ("name", some (SqlVal.text "A"))],
    [("id", some (SqlVal.int 2)), ("name", some (SqlVal.text "B"))]], 3⟩

def cas2log0 : List Event :=
  [Event.invoke "countries" kwEmpty, Event.fetch "country-list" [],
   Event.write "countries" (some (SqlVal.int 1)),
   Event.write "countries" (some (SqlVal.int 2))]

def cas2s1 : TraceSt := ⟨[("countries", countries2Tbl)], cas2log0⟩

/-- State at which client2's cascade dies: the `leagues` table was
created by the schema-ensure step but the failing insert stored no row,
and no invocation for the sibling country 2 ever happened. -/
def cas2sE : TraceSt :=
  ⟨[("countries", countries2Tbl), ("leagues", ⟨leaguesTbl.cols, [], 1⟩)],
   cas2log0 ++ [Event.invoke "leagues" (kwLeagues (some (SqlVal.int 1)) false),
     Event.fetch "league-list" [SqlVal.int 1]]⟩

set_option maxHeartbeats 1000000 in
theorem cas2lvl0 : cascadeLevel0 client2 ⟨dbEmpty, []⟩ = .ok () cas2s1 := by decide

set_option maxHeartbeats 1000000 in
theorem cas2lvl1 :
    cascadeLevel1 client2 cas2s1 =
      .error (Err.storeErr StoreErr.datatypeMismatch) cas2sE := by decide

theorem cas2exec :
    cascadeExecute client2 ⟨dbEmpty, []⟩ =
      .error (Err.storeErr StoreErr.datatypeMismatch) cas2sE := by
  rw [cascadeExecute]
  rw [seqUnit_ok _ _ _ _ cas2lvl0]
  rw [seqUnit_error _ _ _ _ _ cas2lvl1]

/-- The aborted cascade run of client2. -/
def cas2run : RunResult := runM (cascadeExecute client2) dbEmpty

theorem cas2run_eq :
    cas2run = ⟨some (Err.storeErr StoreErr.datatypeMismatch), cas2sE.db, cas2sE.log⟩ := by
  unfold cas2run runM
  rw [show (cascadeExecute client2).run ⟨dbEmpty, []⟩ =
        .error (Err.storeErr StoreErr.datatypeMismatch) cas2sE from cas2exec]

/-- Counterexample to C4 as stated: in client2's cascade, country 2 is in
level 1's input set (the distinct stored country ids are 1 and 2), yet
the storage error raised while persisting country 1's league aborts the
whole cascade — the `leagues` task is never invoked for the sibling
country 2 and the run ends with the uncaught storage exception. -/
theorem cascade_sibling_abort_counterexample :
    cas2run.err = some (Err.storeErr StoreErr.datatypeMismatch) ∧
    getIdsFromTable cas2run.db "countries" "id" = [SqlVal.int 1, SqlVal.int 2] ∧
    invokeKws cas2run.log "leagues" = [kwLeagues (some (SqlVal.int 1)) false] := by
  rw [cas2run_eq]
  decide

def cas3log1 : List Event :=
  cas2log0 ++ [Event.invoke "leagues" (kwLeagues (some (SqlVal.int 1)) false),
    Event.fetch "league-list" [SqlVal.int 1], Event.noData "leagues",
    Event.invoke "leagues" (kwLeagues (some (SqlVal.int 2)) false),
    Event.fetch "league-list" [SqlVal.int 2], Event.write "leagues" (some (SqlVal.int 10))]

def cas3s1 : TraceSt := ⟨[("countries", countries2Tbl)], cas2log0⟩

def cas3s2 : TraceSt := ⟨[("countries", countries2Tbl), ("leagues", leaguesTbl)], cas3log1⟩

def cas3log2 : List Event :=
  cas3log1 ++ (seasonTaskEvents "league_stats" "league-statistics" ++
    seasonTaskEvents "schedules" "league-matches" ++
    seasonTaskEvents "teams" "league-teams" ++
    seasonTaskEvents "players" "league-players" ++
    seasonTaskEvents "referees" "league-referees" ++
    seasonTaskEvents "league_table" "league-tables")

def cas3s3 : TraceSt := ⟨[("countries", countries2Tbl), ("leagues", leaguesTbl)], cas3log2⟩

def cas3log3 : List Event :=
  cas3log2 ++ [Event.tableMissing "teams", Event.tableMissing "matches"]

def cas3s4 : TraceSt := ⟨[("countries", countries2Tbl), ("leagues", leaguesTbl)], cas3log3⟩

def cas3log4 : List Event :=
  cas3log3 ++ [Event.tableMissing "players", Event.tableMissing "referees"]

def cas3s5 : TraceSt := ⟨[("countries", countries2Tbl), ("leagues", leaguesTbl)], cas3log4⟩

set_option maxHeartbeats 1000000 in
theorem cas3lvl0 : cascadeLevel0 client3 ⟨dbEmpty, []⟩ = .ok () cas3s1 := by decide

set_option maxHeartbeats 1000000 in
theorem cas3lvl1 : cascadeLevel1 client3 cas3s1 = .ok () cas3s2 := by decide

set_option maxHeartbeats 2000000 in
theorem cas3lvl2 : cascadeLevel2 client3 cas3s2 = .ok () cas3s3 := by decide

set_option maxHeartbeats 1000000 in
theorem cas3lvl3 : cascadeLevel3 client3 cas3s3 = .ok () cas3s4 := by decide

set_option maxHeartbeats 1000000 in
theorem cas3lvl4 : cascadeLevel4 client3 cas3s4 = .ok () cas3s5 := by decide

theorem cas3exec : cascadeExecute client3 ⟨dbEmpty, []⟩ = .ok () cas3s5 := by
  rw [cascadeExecute]
  rw [seqUnit_ok _ _ _ _ cas3lvl0]
  rw [seqUnit_ok _ _ _ _ cas3lvl1]
  rw [seqUnit_ok _ _ _ _ cas3lvl2]
  rw [seqUnit_ok _ _ _ _ cas3lvl3]
  exact cas3lvl4

/-- The completed cascade run of client3. -/
def cas3run : RunResult := runM (cascadeExecute client3) dbEmpty

theorem cas3run_eq : cas3run = ⟨Option.none, cas3s5.db, cas3s5.log⟩ := by
  unfold cas3run runM
  rw [show (cascadeExecute client3).run ⟨dbEmpty, []⟩ = .ok () cas3s5 from cas3exec]

/-- C4 (amended) — Sibling isolation holds only for failures the tasks
handle as outcomes: in client3's cascade the first country's leagues
fetch yields no data, the task reports it, and the loop continues to the
sibling country 2, whose league is fetched and persisted, the run ending
without an exception; but a raised failure — client2's storage error
during the persistence call for country 1 — propagates out of the
per-identity loop and aborts the entire cascade, the sibling country 2
never running. -/
theorem cascade_sibling_isolation_amended :
    cas3run.err = Option.none ∧
    invokeKws cas3run.log "leagues" =
      [kwLeagues (some (SqlVal.int 1)) false, kwLeagues (some (SqlVal.int 2)) false] ∧
    cas3run.log.count (Event.noData "leagues") = 1 ∧
    writeIds cas3run.log "leagues" = [some (SqlVal.int 10)] ∧
    cas2run.err = some (Err.storeErr StoreErr.datatypeMismatch) ∧
    invokeKws cas2run.log "leagues" = [kwLeagues (some (SqlVal.int 1)) false] := by
  rw [cas3run_eq, cas2run_eq]
  decide

/-! ## Pagination proofs -/

theorem pyTruthy_dict_of_lookup {fs : List (String × PyVal)} {k : String} {v : PyVal}
    (h : alookup k fs = some v) : pyTruthy (.dict fs) = true := by
  cases fs with
  | nil => simp [alookup] at h
  | cons p rest => simp [pyTruthy]

theorem alookup_dictSet_self {fs : List (String × PyVal)} {k : String} {v0 : PyVal}
    (v : PyVal) (h : alookup k fs = some v0) :
    alookup k (dictSet fs k v) = some v := by
  unfold dictSet
  rw [if_pos (any_key_of_alookup h)]
  exact alookup_aupdate_self _ h

theorem extendData_spec {fs gs : List (String × PyVal)} {acc more : List PyVal}
    (hacc : alookup "data" fs = some (.list acc))
    (hmore : alookup "data" gs = some (.list more)) :
    extendData (.dict fs) (.dict gs) = .ok (.dict (dictSet fs "data" (.list (acc ++ more)))) := by
  unfold extendData
  simp only [pyGetItem, hacc, hmore, pyIter]
  rfl

theorem except_bind_ok {ε α β : Type} (a : α) (f : α → Except ε β) :
    (Except.ok a >>= f : Except ε β) = f a := rfl

theorem fetchPagesLoop_spec (fetch : Nat → Option PyVal) (dp : Nat → List PyVal) :
    ∀ (ps : List Nat) (fs : List (String × PyVal)) (acc : List PyVal),
      alookup "data" fs = some (.list acc) →
      (∀ p ∈ ps, ∃ gs, fetch p = some (PyVal.dict gs) ∧
        alookup "data" gs = some (.list (dp p))) →
      ∃ fs', fetchPagesLoop fetch ps (.dict fs) = .ok (.dict fs') ∧
        alookup "data" fs' = some (.list (acc ++ (ps.map dp).flatten)) := by
  intro ps
  induction ps with
  | nil =>
      intro fs acc hacc _
      exact ⟨fs, rfl, by simpa using hacc⟩
  | cons p rest ih =>
      intro fs acc hacc hpages
      obtain ⟨gs, hfp, hgs⟩ := hpages p (List.mem_cons_self _ _)
      have hrest : ∀ q ∈ rest, ∃ gs, fetch q = some (PyVal.dict gs) ∧
          alookup "data" gs = some (.list (dp q)) :=
        fun q hq => hpages q (List.mem_cons_of_mem _ hq)
      have htr : pyTruthy (.dict gs) = true := pyTruthy_dict_of_lookup hgs
      have hstep : fetchPagesLoop fetch (p :: rest) (.dict fs) =
          fetchPagesLoop fetch rest (.dict (dictSet fs "data" (.list (acc ++ dp p)))) := by
        simp only [fetchPagesLoop, hfp, htr, if_true, extendData_spec hacc hgs,
          except_bind_ok]
      rw [hstep]
      obtain ⟨fs', hloop, hdata⟩ := ih (dictSet fs "data" (.list (acc ++ dp p)))
        (acc ++ dp p) (alookup_dictSet_self _ hacc) hrest
      refine ⟨fs', hloop, ?_⟩
      rw [hdata]
      simp [List.append_assoc]

/-- C8 — Pagination concatenation: when the first league-players page is
a response whose `pager.max_page` is `N > 1` and every further page
`2..N` responds with a `data` list, `get_league_players` returns the
first response with its `data` list extended to the concatenation of all
`N` pages' `data` lists in page order. -/
theorem pagination_concatenation (fetch : Nat → Option PyVal)
    (fs1 pg : List (String × PyVal)) (d1 : List PyVal) (dp : Nat → List PyVal) (N : Int)
    (h1 : fetch 1 = some (.dict fs1))
    (hd1 : alookup "data" fs1 = some (.list d1))
    (hpg : alookup "pager" fs1 = some (.dict pg))
    (hmp : alookup "max_page" pg = some (.int N))
    (hN : 1 < N)
    (hpages : ∀ p ∈ pageRange N, ∃ gs, fetch p = some (PyVal.dict gs) ∧
      alookup "data" gs = some (.list (dp p))) :
    ∃ fs', get_league_players fetch = .ok (some (.dict fs')) ∧
      alookup "data" fs' = some (.list (d1 ++ ((pageRange N).map dp).flatten)) := by
  have htr1 : pyTruthy (.dict fs1) = true := pyTruthy_dict_of_lookup hd1
  have hgt : pyGtOne (.int N) = .ok true := by simp [pyGtOne, hN]
  obtain ⟨fs', hloop, hdata⟩ :=
    fetchPagesLoop_spec fetch dp (pageRange N) fs1 d1 hd1 hpages
  refine ⟨fs', ?_, hdata⟩
  simp only [get_league_players, h1, htr1, if_true, pyGetItem, hpg, hmp, hgt,
    except_bind_ok, hloop]

def page1 : List (String × PyVal) :=
  [("data", .list [.int 1, .int 2]),
   ("pager", .dict [("current_page", .int 1), ("max_page", .int 3)])]

def page2 : List (String × PyVal) := [("data", .list [.int 3])]

def page3 : List (String × PyVal) := [("data", .list [.int 4])]

def fetchW : Nat → Option PyVal
  | 1 => some (.dict page1)
  | 2 => some (.dict page2)
  | 3 => some (.dict page3)
  | _ => Option.none

def dpW : Nat → List PyVal
  | 2 => [.int 3]
  | 3 => [.int 4]
  | _ => []

/-- Witness for C8: three fake pages (`max_page = 3`), whose combined
`data` is page 1's list followed by pages 2 and 3 in order. -/
theorem pagination_concatenation_witness :
    fetchW 1 = some (.dict page1) ∧
    alookup "data" page1 = some (.list [.int 1, .int 2]) ∧
    alookup "pager" page1 = some (.dict [("current_page", .int 1), ("max_page", .int 3)]) ∧
    alookup "max_page" [("current_page", PyVal.int 1), ("max_page", PyVal.int 3)] =
      some (.int 3) ∧
    (1 : Int) < 3 ∧
    ((pageRange 3).map dpW).flatten = [PyVal.int 3, PyVal.int 4] ∧
    (∃ fs', get_league_players fetchW = .ok (some (.dict fs')) ∧
      alookup "data" fs' =
        some (.list ([PyVal.int 1, PyVal.int 2] ++ ((pageRange 3).map dpW).flatten))) :=
  ⟨rfl, rfl, rfl, rfl, by norm_num, rfl,
   pagination_concatenation fetchW page1
     [("current_page", PyVal.int 1), ("max_page", PyVal.int 3)]
     [PyVal.int 1, PyVal.int 2] dpW 3 rfl rfl rfl rfl (by norm_num)
     (by
       intro p hp
       have hmem : p ∈ ([2, 3] : List Nat) := hp
       rcases List.mem_cons.mp hmem with rfl | h2
       · exact ⟨page2, rfl, rfl⟩
       · rcases List.mem_cons.mp h2 with rfl | h3
         · exact ⟨page3, rfl, rfl⟩
         · cases h3)⟩
